import Mathlib

/-!
Verification of `rx-query` (`src/rx-query/query.ts`) against its natural-language
specification.  The development shallowly embeds the data model and the operators
of `query.ts`: observables are modeled as lists of emissions (optionally tagged
with a scheduling tick), the user fetch function as a map from the attempt number
to a single success value or a single failure, and the rxjs operator pipelines as
executable recursive functions over those lists.
-/

set_option maxHeartbeats 1000000

namespace RxQuery

/-- JavaScript values used as query parameters: `undefined`, `null`, booleans,
numbers (modeled as integers; the claims and examples only use integer numbers),
strings, arrays and plain objects (field lists kept in insertion order, as
`JSON.stringify` observes them). -/
inductive JSValue : Type where
  | undef : JSValue
  | null : JSValue
  | bool : Bool → JSValue
  | num : Int → JSValue
  | str : String → JSValue
  | arr : List JSValue → JSValue
  | obj : List (String × JSValue) → JSValue

/-- JSON string quoting as performed by `JSON.stringify` on strings and object
keys.  Escaping of special characters is not modeled: the parameters appearing
in the spec and claims contain no characters that need escaping. -/
def jsonQuote (s : String) : String := "\"" ++ s ++ "\""

mutual
/-- Embedding of `JSON.stringify` on `JSValue`.  Returns `none` exactly when the
value is `undefined` (in JavaScript `JSON.stringify(undefined)` is `undefined`,
not a string).  Array holes stringify `undefined` elements as `null`; object
fields whose value is `undefined` are dropped. -/
def jsonStringify : JSValue → Option String
  | JSValue.undef => none
  | JSValue.null => some "null"
  | JSValue.bool b => some (cond b "true" "false")
  | JSValue.num n => some (toString n)
  | JSValue.str s => some (jsonQuote s)
  | JSValue.arr xs => some ("[" ++ String.intercalate "," (jsonItems xs) ++ "]")
  | JSValue.obj fs => some ("\x7b" ++ String.intercalate "," (jsonFields fs) ++ "\x7d")

/-- Stringified array elements, `undefined` rendered as `"null"`. -/
def jsonItems : List JSValue → List String
  | [] => []
  | x :: xs => (jsonStringify x).getD "null" :: jsonItems xs

/-- Stringified object fields, dropping fields whose value is `undefined`. -/
def jsonFields : List (String × JSValue) → List String
  | [] => []
  | (k, v) :: fs =>
    match jsonStringify v with
    | none => jsonFields fs
    | some s => (jsonQuote k ++ ":" ++ s) :: jsonFields fs
end

/-- The comparison used by the params trigger:
`JSON.stringify(a) === JSON.stringify(b)` (line 200 of `query.ts`).  Comparing
the `Option String` results also covers the `undefined === undefined` case. -/
def stringifyEq (a b : JSValue) : Bool := jsonStringify a == jsonStringify b

/-- Test for the JavaScript `undefined` value (`params !== undefined`). -/
def JSValue.isUndef : JSValue → Bool
  | JSValue.undef => true
  | _ => false

/-- Test for the JavaScript `null` value (`params !== null`). -/
def JSValue.isNull : JSValue → Bool
  | JSValue.null => true
  | _ => false

/-- The suffix appended after `key + "-"`:
`["string","number"].includes(typeof params) ? params : JSON.stringify(params)`.
Strings and numbers are coerced raw by the string concatenation; every other
value goes through `JSON.stringify` (a stringify result of `undefined` would be
coerced to the string `"undefined"`, which the guard in the caller makes
unreachable). -/
def paramSuffix : JSValue → String
  | JSValue.str s => s
  | JSValue.num n => toString n
  | p => (jsonStringify p).getD "undefined"

/-- Embedding of `queryKeyAndParamsToCacheKey` (lines 309–321 of `query.ts`). -/
def queryKeyAndParamsToCacheKey (key : String) (params : JSValue) : String :=
  if !params.isUndef && !params.isNull then
    key ++ "-" ++ paramSuffix params
  else key

/-! ## The user fetch function and the result model -/

/-- Outcome of one invocation of the user fetch function: the returned
observable either emits exactly one success value and completes, or terminates
with one failure (this is the contract the spec assigns to the external fetch
collaborator).  `A` is the data type, `E` the opaque error type. -/
inductive FetchOutcome (E A : Type) : Type where
  | ok : A → FetchOutcome E A
  | err : E → FetchOutcome E A
  deriving DecidableEq

/-- A user fetch function for one attempt chain, indexed by the attempt number:
`fetch k` is the outcome of the `k`-th invocation of `query(params)` inside one
`invokeQuery` chain (the params are fixed for the whole chain, so only the
attempt index can influence the outcome). -/
def Fetch (E A : Type) : Type := Nat → FetchOutcome E A

/-- Embedding of the `QueryOutput` records built inside `invokeQuery`
(lines 77–98 of `query.ts`): a state string (`"success"`, `"error"`, or the
`loadingState` parameter after the retry relabeling), optional data, optional
error, optional `retries` field (`none` models an absent field). -/
structure QueryOutput (A E : Type) : Type where
  state : String
  data : Option A
  error : Option E
  retries : Option Nat
  deriving DecidableEq, Repr

/-- The success record of `invoke`: `{state:"success", data, ...(retries ? {retries} : {})}`.
The spread omits the `retries` field exactly when the number `retries` is falsy,
i.e. when it is `0`. -/
def successOutput {A E : Type} (retries : Nat) (data : A) : QueryOutput A E :=
  ⟨"success", some data, none, if retries = 0 then none else some retries⟩

/-- The error record produced by the `catchError` handler of `invoke`:
`{state:"error", error, retries}` (the `retries` field is always present,
including at value `0`). -/
def errorOutput {A E : Type} (retries : Nat) (e : E) : QueryOutput A E :=
  ⟨"error", none, some e, some retries⟩

/-- A finished observable, modeled as the list of values it emits followed by
its termination: `err = none` is normal completion, `err = some e` is an error
termination with `e`. -/
structure SimObs (α E : Type) : Type where
  emits : List α
  err : Option E

/-- The observable returned by the user fetch function on attempt `retries`:
one emission and completion on success, no emission and an error termination on
failure. -/
def userObs {E A : Type} (fetch : Fetch E A) (retries : Nat) : SimObs A E :=
  match fetch retries with
  | FetchOutcome.ok a => ⟨[a], none⟩
  | FetchOutcome.err e => ⟨[], some e⟩

/-- The rxjs `map` operator on a finished observable. -/
def mapObs {α β E : Type} (f : α → β) (o : SimObs α E) : SimObs β E :=
  ⟨o.emits.map f, o.err⟩

/-- The rxjs `of` constructor: one emission, normal completion. -/
def ofObs {α E : Type} (x : α) : SimObs α E := ⟨[x], none⟩

/-- The rxjs `catchError` operator: on an error termination, switch to the
observable produced by the handler; otherwise pass the source through unchanged. -/
def catchErrorObs {α E : Type} (o : SimObs α E) (h : E → SimObs α E) : SimObs α E :=
  match o.err with
  | none => o
  | some e => ⟨o.emits ++ (h e).emits, (h e).err⟩

/-- Embedding of `invoke` (lines 77–98 of `query.ts`) as an observable:
`query(params).pipe(map(success record), catchError(error => of(error record)))`. -/
def invokeObs {E A : Type} (fetch : Fetch E A) (retries : Nat) :
    SimObs (QueryOutput A E) E :=
  catchErrorObs (mapObs (successOutput retries) (userObs fetch retries))
    (fun e => ofObs (errorOutput retries e))

/-- The single value emitted by `invoke` on attempt `retries` (justified by
`invokeObs_eq`: the `invoke` observable always emits exactly this one record and
completes normally). -/
def invoke {E A : Type} (fetch : Fetch E A) (retries : Nat) : QueryOutput A E :=
  match fetch retries with
  | FetchOutcome.ok a => successOutput retries a
  | FetchOutcome.err e => errorOutput retries e

/-! ## Configuration -/

/-- The `retries` configuration value: a number, a user predicate
`(attemptNumber, error) => boolean` (the error argument is the `error` field of
the failed result, hence an `Option E`), or the JavaScript `undefined`. -/
inductive RetriesInput (E : Type) : Type where
  | undef : RetriesInput E
  | num : Nat → RetriesInput E
  | cond : (Nat → Option E → Bool) → RetriesInput E

/-- The `retryDelay` configuration value: a number, a function of the attempt
number, or the JavaScript `undefined`. -/
inductive RetryDelayInput : Type where
  | undef : RetryDelayInput
  | num : Nat → RetryDelayInput
  | fn : (Nat → Nat) → RetryDelayInput

/-- A resolved configuration (`Required<QueryConfig>` in `query.ts`).  the TypeScript
`Required` modifier does not prevent runtime `undefined` values (the default
`refetchInterval` is literally `undefined as any`), so the fields keep their
option/undefined-aware types.  `refetchInterval` is modeled as an optional
period in milliseconds (the observable variant of `refetchInterval` plays no
role in the claims). -/
structure ResolvedQueryConfig (E : Type) : Type where
  retries : RetriesInput E
  retryDelay : RetryDelayInput
  refetchOnWindowFocus : Option Bool
  refetchInterval : Option Nat
  staleTime : Option Nat
  cacheTime : Option Nat

/-- Embedding of `DEFAULT_QUERY_CONFIG` (lines 34–41 of `query.ts`). -/
def DEFAULT_QUERY_CONFIG {E : Type} : ResolvedQueryConfig E where
  retries := RetriesInput.num 3
  retryDelay := RetryDelayInput.fn (fun n => (n + 1) * 1000)
  refetchOnWindowFocus := some false
  refetchInterval := none
  staleTime := some 0
  cacheTime := some 300000

/-- A caller-supplied `QueryConfig` object.  Each field distinguishes a key that
is absent from the object literal (`none`) from a key that is present — possibly
with an explicit `undefined` value (`some (.undef)` resp. `some none`): the
object-spread merge in `parseInput` treats those differently. -/
structure QueryConfigInput (E : Type) : Type where
  retries : Option (RetriesInput E) := none
  retryDelay : Option RetryDelayInput := none
  refetchOnWindowFocus : Option (Option Bool) := none
  refetchInterval : Option (Option Nat) := none
  staleTime : Option (Option Nat) := none
  cacheTime : Option (Option Nat) := none

/-- The object spread `{...DEFAULT_QUERY_CONFIG, ...inputConfig}`: every key
present in `inputConfig` (even one whose value is `undefined`) overrides the
default, every absent key keeps the default. -/
def spreadConfig {E : Type} (d : ResolvedQueryConfig E) (i : QueryConfigInput E) :
    ResolvedQueryConfig E where
  retries := i.retries.getD d.retries
  retryDelay := i.retryDelay.getD d.retryDelay
  refetchOnWindowFocus := i.refetchOnWindowFocus.getD d.refetchOnWindowFocus
  refetchInterval := i.refetchInterval.getD d.refetchInterval
  staleTime := i.staleTime.getD d.staleTime
  cacheTime := i.cacheTime.getD d.cacheTime

/-- The configuration resolution of `parseInput` (lines 297–300 of `query.ts`):
`{...DEFAULT_QUERY_CONFIG, ...inputConfig}` where `inputConfig` may itself be
absent (spreading `undefined` is a no-op). -/
def mergeConfig {E : Type} (inputConfig : Option (QueryConfigInput E)) :
    ResolvedQueryConfig E :=
  spreadConfig DEFAULT_QUERY_CONFIG (inputConfig.getD {})

/-- The first positional input of `query` after the key: either the fetch
function itself (the two-argument overload), a static parameter value, or a
parameter observable, modeled by its list of emissions. -/
inductive FirstInput : Type where
  | fn : FirstInput
  | param : JSValue → FirstInput
  | paramObs : List JSValue → FirstInput

/-- The parameter-stream resolution of `parseInput` (lines 281–287 of
`query.ts`): a leading fetch function yields `of(null)`, a static parameter `p`
yields `of(p)` (including `p = undefined`), and an observable parameter is used
as is. -/
def parsedQueryParam : FirstInput → List JSValue
  | FirstInput.fn => [JSValue.null]
  | FirstInput.param v => [v]
  | FirstInput.paramObs vs => vs

/-- Embedding of `createRetryCondition` (lines 186–190 of `query.ts`):
a numeric `retries` yields the predicate `n < retries` (`retries || 0` coincides
with `retries` on naturals), a function is used as is, and any other (falsy)
value yields the constantly false predicate. -/
def createRetryCondition {E : Type} (retries : RetriesInput E) :
    Nat → Option E → Bool
  | n, _e =>
    match retries with
    | RetriesInput.num r => decide (n < r)
    | RetriesInput.cond p => p n _e
    | RetriesInput.undef => false

/-- Embedding of `createRetryDelay` (lines 180–184 of `query.ts`). -/
def createRetryDelay (retryDelay : RetryDelayInput) : Nat → Nat
  | n =>
    match retryDelay with
    | RetryDelayInput.num d => d
    | RetryDelayInput.fn f => f n
    | RetryDelayInput.undef => 0

/-! ## The retrying invoker (`invokeQuery`, lines 73–127 of `query.ts`)

The `expand`/`debounce` pipeline is modeled over tick-tagged emission lists.
Ticks abstract the rxjs scheduling order; the facts the model relies on are:

* `startWith` emits synchronously, so the relabeled loading record is delivered
  in the same tick as the error record it replaces;
* `timer(d)` delivers asynchronously for every `d ≥ 0`, so the result of the next
  attempt lands in a strictly later tick (modeled as `t + delay + 1`);
* `debounce(result => result.state === "error" ? timer(0) : EMPTY)` forwards a
  non-error record immediately (`EMPTY` completes at once, and rxjs 6 `debounce`
  emits the held value when the duration observable emits or completes), holds
  an error record until the next tick, and drops it if another record arrives in
  the same tick; a held record is also flushed when the source completes.

The model covers `loadingState ≠ "error"`: the relabeled record then never
re-enters the retry branch of `expand`, matching the recursion below. -/

/-- The emissions of `invoke(0).pipe(expand(...))` before the `debounce`,
tagged with their tick: on a failed attempt whose retry condition holds, the
error record and its `startWith` relabeling `{...result, state: loadingState}`
are emitted in the current tick and the chain continues with attempt
`(result.retries || 0) + 1` after `timer(retryDelay(result.retries || 0))`;
otherwise the single result ends the chain (`expand` returns `EMPTY`).  `fuel`
bounds the recursion; every theorem quantifies over sufficient fuel. -/
def chainAuxT {E A : Type} (fetch : Fetch E A) (cond : Nat → Option E → Bool)
    (dly : Nat → Nat) (ls : String) :
    Nat → Nat → Nat → List (Nat × QueryOutput A E)
  | 0, _, _ => []
  | fuel + 1, k, t =>
    if (invoke fetch k).state == "error"
        && cond ((invoke fetch k).retries.getD 0) (invoke fetch k).error then
      (t, invoke fetch k) :: (t, { invoke fetch k with state := ls }) ::
        chainAuxT fetch cond dly ls fuel (k + 1)
          (t + dly ((invoke fetch k).retries.getD 0) + 1)
    else [(t, invoke fetch k)]

/-- The `debounce` stage: a record whose state is `"error"` is held until the
next tick (`timer(0)`) and dropped when any record follows it in the same tick;
every other record is forwarded immediately; a held record is flushed at
completion. -/
def debounceSim {A E : Type} : List (Nat × QueryOutput A E) → List (QueryOutput A E)
  | [] => []
  | (t, r) :: rest =>
    if r.state == "error" then
      match rest with
      | [] => [r]
      | (t2, _) :: _ =>
        if t2 == t then debounceSim rest else r :: debounceSim rest
    else r :: debounceSim rest

/-- Embedding of the observable returned by `invokeQuery` (lines 100–124 of
`query.ts`): the emissions a subscriber receives from
`invoke(0).pipe(expand(...), debounce(...))`. -/
def invokeQuery {E A : Type} (fetch : Fetch E A) (cond : Nat → Option E → Bool)
    (dly : Nat → Nat) (ls : String) (fuel : Nat) : List (QueryOutput A E) :=
  debounceSim (chainAuxT fetch cond dly ls fuel 0 0)

/-! ## The params trigger (`paramsTrigger`, lines 192–226 of `query.ts`) -/

/-- A revalidation event as built by the triggers.  The `query` field of the
TypeScript record (the invoker closure) carries no data relevant to the claims
and is omitted. -/
structure Revalidator (E : Type) : Type where
  key : String
  trigger : String
  params : JSValue
  config : ResolvedQueryConfig E

/-- The rxjs `distinctUntilChanged(cmp)` tail: drop each value that compares
equal to the value most recently emitted. -/
def ducGo {α : Type} (cmp : α → α → Bool) (prev : α) : List α → List α
  | [] => []
  | b :: rest => if cmp prev b then ducGo cmp prev rest else b :: ducGo cmp b rest

/-- The rxjs `distinctUntilChanged(cmp)` operator on an emission list. -/
def distinctUntilChangedBy {α : Type} (cmp : α → α → Bool) : List α → List α
  | [] => []
  | a :: rest => a :: ducGo cmp a rest

/-- The rxjs `pairwise` operator: consecutive pairs of emissions. -/
def pairwiseL {α : Type} (l : List α) : List (α × α) := l.zip l.tail

/-- The body of the `concatMap` in `paramsTrigger`: an `unsubscribe` event for
the previous cache key when `previous !== undefined`, followed by a `subscribe`
event for the new one. -/
def paramsStep {E : Type} (queryConfig : ResolvedQueryConfig E) (key : String)
    (pc : JSValue × JSValue) : List (Revalidator E) :=
  (if pc.1.isUndef then [] else
    [⟨queryKeyAndParamsToCacheKey key pc.1, "query-unsubscribe", pc.1, queryConfig⟩])
    ++ [⟨queryKeyAndParamsToCacheKey key pc.2, "query-subscribe", pc.2, queryConfig⟩]

/-- Embedding of `paramsTrigger` (lines 192–226 of `query.ts`):
`queryParam.pipe(startWith(undefined), distinctUntilChanged(stringify-compare),
pairwise(), concatMap(...))`. -/
def paramsTrigger {E : Type} (queryConfig : ResolvedQueryConfig E)
    (queryParam : List JSValue) (key : String) : List (Revalidator E) :=
  (pairwiseL (distinctUntilChangedBy stringifyEq (JSValue.undef :: queryParam))).flatMap
    (paramsStep queryConfig key)

/-- Spec-side restatement of the (amended) params-trigger contract, written as a
direct recursion over the parameter stream with the previous distinct value as
accumulator: a value that compares `JSON.stringify`-equal to the previous one
emits nothing; a change emits an unsubscribe for the previous cache key
immediately followed by a subscribe for the new one, except that no unsubscribe
is emitted when the previous value is `undefined` (in particular for the very
first value).  `paramsTrigger_eq_spec` proves the pipeline equal to it. -/
def paramsEventsSpec {E : Type} (queryConfig : ResolvedQueryConfig E) (key : String) :
    JSValue → List JSValue → List (Revalidator E)
  | _, [] => []
  | prev, v :: rest =>
    if stringifyEq prev v then paramsEventsSpec queryConfig key prev rest
    else paramsStep queryConfig key (prev, v) ++ paramsEventsSpec queryConfig key v rest

/-! ## The subscriber-facing pipeline of `query` (lines 129–177 of `query.ts`) -/

/-- The rxjs `withLatestFrom`: the latest value of `other` received strictly
before tick `t` (a value arriving in the same tick has not been received yet). -/
def latestAt {β : Type} (other : List (Nat × β)) (t : Nat) : Option β :=
  ((other.filter (fun p => decide (p.1 < t))).getLast?).map Prod.snd

/-- The rxjs `withLatestFrom` operator over tick-tagged emissions: each source
emission is paired with the latest `other` value already received, and is
suppressed while `other` has not emitted yet. -/
def withLatestFromSim {α β : Type} (src : List (Nat × α)) (other : List (Nat × β)) :
    List (α × β) :=
  src.filterMap (fun p => (latestAt other p.1).map (fun b => (p.2, b)))

/-- The result stream built in `query` (lines 156–161 of `query.ts`):
`cache.pipe(withLatestFrom(params$), map(([c,k]) => c[k.key]), filter(v => !!v),
map(v => v.result), distinctUntilChanged((a,b) => a === b))`.  The cache module
is not part of the sources; a cache snapshot is modeled abstractly as a partial
map from cache keys to the `result` payload of the stored entry (`none` for an
absent entry, removed by the `filter`), and the reference comparison
`a === b` as the `BEq` test on payloads. -/
def queryEmits {α E : Type} [BEq α] (cacheSrc : List (Nat × (String → Option α)))
    (queryConfig : ResolvedQueryConfig E) (queryParam : List JSValue) (key : String)
    (tags : List Nat) : List α :=
  distinctUntilChangedBy (fun a b => a == b)
    ((withLatestFromSim cacheSrc
        (tags.zip (paramsTrigger queryConfig queryParam key))).filterMap
      (fun cr => cr.1 cr.2.key))

/-- The event pushed by the `finalize` callback of `query` (lines 162–174 of
`query.ts`).  The callback re-subscribes `params$` with `take(1)`, so the pushed
event is built from the first event of a fresh params-trigger subscription; its
`params` property is assigned that whole `Revalidator` event (not a raw
parameter value), modeled by the `paramsEvent` field. -/
structure FinalizePush (E : Type) : Type where
  key : String
  trigger : String
  config : ResolvedQueryConfig E
  paramsEvent : Revalidator E

/-- What the `finalize` callback does when a subscriber of the
defer-created pipeline detaches: push one `query-unsubscribe` event built from
the first params-trigger event — no event at all when the params trigger never
emits (`take(1)` of an empty stream) — and tear down the merged trigger
subscription (`triggersSubscription.unsubscribe()`) in the same step. -/
structure DetachAction (E : Type) : Type where
  pushes : List (FinalizePush E)
  teardownTriggers : Bool

/-- Embedding of the `finalize` callback (lines 162–174 of `query.ts`).  Each
subscription to the observable returned by `query` runs its own copy of the
pipeline (rxjs `defer` invokes the factory once per subscriber), so this action
runs exactly once per detaching listener. -/
def onDetach {E : Type} (queryConfig : ResolvedQueryConfig E)
    (queryParam : List JSValue) (key : String) : DetachAction E :=
  ⟨match (paramsTrigger queryConfig queryParam key).head? with
    | some r => [⟨r.key, "query-unsubscribe", queryConfig, r⟩]
    | none => [],
   true⟩


/-- The error-termination channel of the whole `invokeQuery` chain.  `expand`,
`timer`, `startWith` and `debounce` only propagate error terminations of their
inner observables, and the only inner sources of the chain are the per-attempt
`invoke` observables (`timer` never errors), so the chain terminates with an
error iff the `invoke` observable of some attempt does. -/
def chainErr {E A : Type} (fetch : Fetch E A) (fuel : Nat) : Option E :=
  (List.range fuel).findSome? (fun k => (invokeObs fetch k).err)

/-! ## Theorems -/

/-- The observable built by `invoke` always emits exactly one record and
completes normally: `catchError` converts the fetch failure into a data
emission. -/
theorem invokeObs_eq {E A : Type} (fetch : Fetch E A) (retries : Nat) :
    invokeObs fetch retries = ⟨[invoke fetch retries], none⟩ := by
  unfold invokeObs invoke userObs
  cases fetch retries <;> rfl

theorem invoke_ok {E A : Type} {fetch : Fetch E A} {k : Nat} {a : A}
    (h : fetch k = FetchOutcome.ok a) : invoke fetch k = successOutput k a := by
  unfold invoke; rw [h]

theorem invoke_err {E A : Type} {fetch : Fetch E A} {k : Nat} {e : E}
    (h : fetch k = FetchOutcome.err e) : invoke fetch k = errorOutput k e := by
  unfold invoke; rw [h]

theorem debounceSim_single {A E : Type} (t : Nat) (r : QueryOutput A E) :
    debounceSim [(t, r)] = [r] := by
  cases h : r.state == "error" <;> simp [debounceSim, h]

theorem debounceSim_error_same_tick {A E : Type} (t : Nat) (r r2 : QueryOutput A E)
    (hr : (r.state == "error") = true) (rest : List (Nat × QueryOutput A E)) :
    debounceSim ((t, r) :: (t, r2) :: rest) = debounceSim ((t, r2) :: rest) := by
  simp [debounceSim, hr]

theorem debounceSim_nonerror {A E : Type} (t : Nat) (r : QueryOutput A E)
    (hr : (r.state == "error") = false) (rest : List (Nat × QueryOutput A E)) :
    debounceSim ((t, r) :: rest) = r :: debounceSim rest := by
  simp [debounceSim, hr]

theorem invokeQuery_chain_spec {E A : Type} (fetch : Fetch E A)
    (cond : Nat → Option E → Bool) (dly : Nat → Nat) (ls : String) (efn : Nat → E)
    (k : Nat) (hls : ls ≠ "error")
    (hfail : ∀ j, j < k → fetch j = FetchOutcome.err (efn j) ∧ cond j (some (efn j)) = true)
    (hterm : (∃ a, fetch k = FetchOutcome.ok a) ∨
      ∃ e, fetch k = FetchOutcome.err e ∧ cond k (some e) = false) :
    ∀ fuel m t, m ≤ k → k - m < fuel →
    debounceSim (chainAuxT fetch cond dly ls fuel m t)
      = (List.range' m (k - m)).map
          (fun j => (⟨ls, none, some (efn j), some j⟩ : QueryOutput A E))
        ++ [invoke fetch k] := by
  intro fuel
  induction fuel with
  | zero => intro m t _ hf; omega
  | succ fuel ih =>
    intro m t hm hf
    rcases eq_or_lt_of_le hm with heq | hlt
    · subst heq
      have hguard : ((invoke fetch m).state == "error"
          && cond ((invoke fetch m).retries.getD 0) (invoke fetch m).error) = false := by
        rcases hterm with ⟨a, ha⟩ | ⟨e, he, hce⟩
        · rw [invoke_ok ha]; simp [successOutput]
        · rw [invoke_err he]; simp [errorOutput, hce]
      rw [chainAuxT, if_neg (by simp [hguard])]
      simp [debounceSim_single]
    · obtain ⟨hfm, hcm⟩ := hfail m hlt
      have hinv : invoke fetch m = errorOutput m (efn m) := invoke_err hfm
      have hguard : ((invoke fetch m).state == "error"
          && cond ((invoke fetch m).retries.getD 0) (invoke fetch m).error) = true := by
        rw [hinv]; simp [errorOutput, hcm]
      rw [chainAuxT, if_pos (by simp [hguard])]
      rw [hinv]
      have hrest := ih (m + 1) (t + dly ((errorOutput m (efn m) : QueryOutput A E).retries.getD 0) + 1)
        (by omega) (by omega)
      rw [debounceSim_error_same_tick _ _ _ (by simp [errorOutput]) _,
        debounceSim_nonerror _ _ (by simp [beq_eq_false_iff_ne.mpr hls]) _, hrest]
      have hkm : k - m = (k - (m + 1)) + 1 := by omega
      rw [hkm]
      rw [List.range'_succ]
      simp [errorOutput]

end RxQuery
namespace RxQuery

theorem invoke_retries_getD {E A : Type} (fetch : Fetch E A) (m : Nat) :
    ((invoke fetch m).retries.getD 0) = m := by
  unfold invoke
  cases fetch m with
  | ok a =>
    simp only [successOutput]
    rcases Nat.eq_zero_or_pos m with h | h
    · simp [h]
    · simp [Nat.pos_iff_ne_zero.mp h]
  | err e => simp [errorOutput]

theorem relabel_retries {E A : Type} (fetch : Fetch E A) (m : Nat) (ls : String) :
    ({ invoke fetch m with state := ls } : QueryOutput A E).retries
      = (invoke fetch m).retries := rfl

theorem chainAuxT_retries_lb {E A : Type} (fetch : Fetch E A)
    (cond : Nat → Option E → Bool) (dly : Nat → Nat) (ls : String) :
    ∀ fuel m t, ∀ x ∈ chainAuxT fetch cond dly ls fuel m t, m ≤ x.2.retries.getD 0 := by
  intro fuel
  induction fuel with
  | zero => intro m t x hx; simp [chainAuxT] at hx
  | succ fuel ih =>
    intro m t x hx
    rw [chainAuxT] at hx
    by_cases hg : ((invoke fetch m).state == "error"
        && cond ((invoke fetch m).retries.getD 0) (invoke fetch m).error) = true
    · rw [if_pos hg] at hx
      simp only [List.mem_cons] at hx
      rcases hx with hx | hx | hx
      · simp [hx, invoke_retries_getD]
      · simp only [hx]
        simp [relabel_retries, invoke_retries_getD]
      · have := ih (m + 1) _ x hx
        omega
    · rw [if_neg hg] at hx
      simp only [List.mem_cons, List.not_mem_nil, or_false] at hx
      simp [hx, invoke_retries_getD]

theorem chainAuxT_retries_pairwise {E A : Type} (fetch : Fetch E A)
    (cond : Nat → Option E → Bool) (dly : Nat → Nat) (ls : String) :
    ∀ fuel m t, (chainAuxT fetch cond dly ls fuel m t).Pairwise
      (fun a b => a.2.retries.getD 0 ≤ b.2.retries.getD 0) := by
  intro fuel
  induction fuel with
  | zero => intro m t; simp [chainAuxT]
  | succ fuel ih =>
    intro m t
    rw [chainAuxT]
    by_cases hg : ((invoke fetch m).state == "error"
        && cond ((invoke fetch m).retries.getD 0) (invoke fetch m).error) = true
    · rw [if_pos hg]
      refine List.Pairwise.cons ?_ (List.Pairwise.cons ?_ (ih (m + 1) _))
      · intro y hy
        simp only [List.mem_cons] at hy
        rcases hy with hy | hy
        · simp [hy, relabel_retries, invoke_retries_getD]
        · have := chainAuxT_retries_lb fetch cond dly ls fuel (m + 1) _ y hy
          simp only [invoke_retries_getD]
          omega
      · intro y hy
        have := chainAuxT_retries_lb fetch cond dly ls fuel (m + 1) _ y hy
        simp only [relabel_retries, invoke_retries_getD]
        omega
    · rw [if_neg hg]; simp

theorem debounceSim_sublist {A E : Type} :
    ∀ l : List (Nat × QueryOutput A E), (debounceSim l).Sublist (l.map Prod.snd) := by
  intro l
  induction l with
  | nil => simp [debounceSim]
  | cons p rest ih =>
    obtain ⟨t, r⟩ := p
    by_cases hr : (r.state == "error") = true
    · match rest with
      | [] => simp [debounceSim, hr]
      | (t2, y) :: ys =>
        by_cases ht : (t2 == t) = true
        · have hd : debounceSim ((t, r) :: (t2, y) :: ys) = debounceSim ((t2, y) :: ys) := by
            simp [debounceSim, hr, ht]
          rw [hd]
          exact ih.cons r
        · have hd : debounceSim ((t, r) :: (t2, y) :: ys)
              = r :: debounceSim ((t2, y) :: ys) := by
            simp [debounceSim, hr, ht]
          rw [hd]
          exact ih.cons₂ r
    · rw [debounceSim_nonerror t r (by simpa using hr) rest]
      exact ih.cons₂ r

theorem invokeQuery_dropLast_aux {E A : Type} (fetch : Fetch E A)
    (cond : Nat → Option E → Bool) (dly : Nat → Nat) (ls : String)
    (hls : ls ≠ "error") :
    ∀ fuel m t, ∀ x ∈ (debounceSim (chainAuxT fetch cond dly ls fuel m t)).dropLast,
      x.state ≠ "error" := by
  intro fuel
  induction fuel with
  | zero => intro m t x hx; simp [chainAuxT, debounceSim] at hx
  | succ fuel ih =>
    intro m t x hx
    rw [chainAuxT] at hx
    by_cases hg : ((invoke fetch m).state == "error"
        && cond ((invoke fetch m).retries.getD 0) (invoke fetch m).error) = true
    · rw [if_pos hg] at hx
      have hr : ((invoke fetch m).state == "error") = true :=
        ((Bool.and_eq_true _ _).mp hg).1
      rw [debounceSim_error_same_tick _ _ _ hr _,
        debounceSim_nonerror _ _ (by simp [beq_eq_false_iff_ne.mpr hls]) _] at hx
      rcases hD : debounceSim (chainAuxT fetch cond dly ls fuel (m + 1)
          (t + dly ((invoke fetch m).retries.getD 0) + 1)) with _ | ⟨d, ds⟩
      · rw [hD] at hx
        simp at hx
      · rw [hD] at hx
        rw [List.dropLast_cons₂, List.mem_cons] at hx
        rcases hx with hx | hx
        · subst hx; simpa using hls
        · refine ih (m + 1) (t + dly ((invoke fetch m).retries.getD 0) + 1) x ?_
          rw [hD]
          exact hx
    · rw [if_neg hg, debounceSim_single] at hx
      simp at hx


/-- Congruence of the stringify comparison: values that compare equal compare
equally against everything else. -/
theorem stringifyEq_congr {a b c : JSValue} (h : stringifyEq a b = true) :
    stringifyEq c a = stringifyEq c b := by
  unfold stringifyEq at h ⊢
  rw [beq_iff_eq] at h
  rw [h]

theorem paramsTrigger_go_spec {E : Type} (cfg : ResolvedQueryConfig E) (key : String) :
    ∀ (ps : List JSValue) (prev : JSValue),
    (pairwiseL (prev :: ducGo stringifyEq prev ps)).flatMap (paramsStep cfg key)
      = paramsEventsSpec cfg key prev ps := by
  intro ps
  induction ps with
  | nil => intro prev; rfl
  | cons v rest ih =>
    intro prev
    cases h : stringifyEq prev v with
    | true =>
      rw [paramsEventsSpec]
      rw [if_pos h]
      rw [ducGo, if_pos h]
      exact ih prev
    | false =>
      rw [paramsEventsSpec]
      rw [if_neg (by simp [h])]
      rw [ducGo, if_neg (by simp [h])]
      have hpw : pairwiseL (prev :: v :: ducGo stringifyEq v rest)
          = (prev, v) :: pairwiseL (v :: ducGo stringifyEq v rest) := rfl
      rw [hpw, List.flatMap_cons]
      rw [ih v]

/-- The params trigger pipeline agrees with the change-driven recursion
`paramsEventsSpec` started from the injected `startWith(undefined)` value. -/
theorem paramsTrigger_eq_spec {E : Type} (cfg : ResolvedQueryConfig E)
    (queryParam : List JSValue) (key : String) :
    paramsTrigger cfg queryParam key
      = paramsEventsSpec cfg key JSValue.undef queryParam := by
  unfold paramsTrigger distinctUntilChangedBy
  exact paramsTrigger_go_spec cfg key queryParam JSValue.undef

/-- A parameter stream consisting only of `undefined` values is collapsed into
the injected leading `undefined` and produces no trigger events. -/
theorem paramsTrigger_all_undef {E : Type} (cfg : ResolvedQueryConfig E)
    (key : String) : ∀ (ps : List JSValue), (∀ v ∈ ps, v = JSValue.undef) →
    paramsTrigger cfg ps key = [] := by
  intro ps hps
  rw [paramsTrigger_eq_spec]
  induction ps with
  | nil => rfl
  | cons v rest ih =>
    have hv : v = JSValue.undef := hps v (by simp)
    subst hv
    rw [paramsEventsSpec, if_pos (by rfl)]
    exact ih (fun w hw => hps w (by simp [hw]))



/-- A `findSome?` whose selector never produces a value yields `none`. -/
theorem findSome?_none_of {α β : Type} (f : α → Option β) (hf : ∀ a, f a = none) :
    ∀ l : List α, l.findSome? f = none := by
  intro l
  induction l with
  | nil => rfl
  | cons x xs ih =>
    rw [List.findSome?_cons, hf x]
    exact ih

/-! ## Claim C1 -/

/-- C1: for every fetch function and a configuration with a numeric `retries`
value `r` and any `retryDelay`, the attempt chain of `invokeQuery` terminates:
when the fetch first succeeds on attempt `k ≤ r` it ends with
`{state:"success", data, retries:k}` (the `retries` field omitted when `k = 0`),
and when attempt `k` fails with the retry condition `attemptNumber < r` false
(`k = r` after `k` retried failures) it ends with
`{state:"error", error:e, retries:k}` carrying the last failure.  The emission
list is finite of length `k + 1` for every sufficient fuel, i.e. the chain
terminates.  (The general, user-predicate form of the retry condition is
`invokeQuery_chain_spec`.) -/
theorem invokeQuery_retry_termination {E A : Type} (fetch : Fetch E A) (r : Nat)
    (rd : RetryDelayInput) (ls : String) (efn : Nat → E) (k fuel : Nat)
    (hls : ls ≠ "error") (hfuel : k < fuel)
    (hfail : ∀ j, j < k → fetch j = FetchOutcome.err (efn j)) :
    (∀ a, fetch k = FetchOutcome.ok a → k ≤ r →
      (invokeQuery fetch (createRetryCondition (RetriesInput.num r))
          (createRetryDelay rd) ls fuel).getLast? = some (successOutput k a)
      ∧ (invokeQuery fetch (createRetryCondition (RetriesInput.num r))
          (createRetryDelay rd) ls fuel).length = k + 1)
    ∧ (∀ e, fetch k = FetchOutcome.err e → k = r →
      (invokeQuery fetch (createRetryCondition (RetriesInput.num r))
          (createRetryDelay rd) ls fuel).getLast? = some (errorOutput k e)
      ∧ (invokeQuery fetch (createRetryCondition (RetriesInput.num r))
          (createRetryDelay rd) ls fuel).length = k + 1) := by
  constructor
  · intro a ha hkr
    have hfail2 : ∀ j, j < k → fetch j = FetchOutcome.err (efn j)
        ∧ createRetryCondition (RetriesInput.num r) j (some (efn j)) = true := by
      intro j hj
      exact ⟨hfail j hj, decide_eq_true (by omega)⟩
    have hspec := invokeQuery_chain_spec fetch (createRetryCondition (RetriesInput.num r))
      (createRetryDelay rd) ls efn k hls hfail2 (Or.inl ⟨a, ha⟩) fuel 0 0
      (Nat.zero_le k) (by omega)
    rw [Nat.sub_zero] at hspec
    unfold invokeQuery
    rw [hspec, invoke_ok ha]
    refine ⟨List.getLast?_concat _, ?_⟩
    simp
  · intro e he hkr
    have hfail2 : ∀ j, j < k → fetch j = FetchOutcome.err (efn j)
        ∧ createRetryCondition (RetriesInput.num r) j (some (efn j)) = true := by
      intro j hj
      exact ⟨hfail j hj, decide_eq_true (by omega)⟩
    have hcf : createRetryCondition (RetriesInput.num r) k (some e) = false := by
      have : ¬ (k < r) := by omega
      simpa [createRetryCondition] using this
    have hspec := invokeQuery_chain_spec fetch (createRetryCondition (RetriesInput.num r))
      (createRetryDelay rd) ls efn k hls hfail2 (Or.inr ⟨e, he, hcf⟩) fuel 0 0
      (Nat.zero_le k) (by omega)
    rw [Nat.sub_zero] at hspec
    unfold invokeQuery
    rw [hspec, invoke_err he]
    refine ⟨List.getLast?_concat _, ?_⟩
    simp

/-- Witness for C1: the example from the spec — `retries = 2`, `retryDelay = () => 0`,
a fetch failing on attempts 0 and 1 and succeeding on attempt 2 ends in state
`success` with `retries = 2`. -/
theorem invokeQuery_retry_termination_witness :
    (invokeQuery (fun n => if n < 2 then FetchOutcome.err "boom" else FetchOutcome.ok (42 : Nat))
        (createRetryCondition (RetriesInput.num 2))
        (createRetryDelay (RetryDelayInput.fn (fun _ => 0))) "query-loading" 3).getLast?
      = some (successOutput 2 42)
    ∧ (invokeQuery (fun n => if n < 2 then FetchOutcome.err "boom" else FetchOutcome.ok (42 : Nat))
        (createRetryCondition (RetriesInput.num 2))
        (createRetryDelay (RetryDelayInput.fn (fun _ => 0))) "query-loading" 3).length = 3 :=
  (invokeQuery_retry_termination
      (fun n => if n < 2 then FetchOutcome.err "boom" else FetchOutcome.ok (42 : Nat))
      2 (RetryDelayInput.fn (fun _ => 0)) "query-loading" (fun _ => "boom") 2 3
      (by decide) (by decide) (by decide)).1 42 (by decide) (by decide)

/-! ## Claim C3 -/

/-- C3: every failure of the user fetch function is captured by `catchError` and
surfaced as a data emission with state `"error"` carrying the opaque error
value; the `invoke` observable never terminates with an error, and the
attempt-chain error channel is empty, so the stream handed to the caller never
error-terminates because of a fetch failure. -/
theorem fetch_failures_surface_as_data {E A : Type} :
    (∀ (fetch : Fetch E A) (k : Nat), (invokeObs fetch k).err = none
      ∧ (invokeObs fetch k).emits = [invoke fetch k])
    ∧ (∀ (fetch : Fetch E A) (k : Nat) (e : E), fetch k = FetchOutcome.err e →
        (invokeObs fetch k).emits
          = [{ state := "error", data := none, error := some e, retries := some k }])
    ∧ (∀ (fetch : Fetch E A) (fuel : Nat), chainErr fetch fuel = none) := by
  refine ⟨?_, ?_, ?_⟩
  · intro fetch k
    rw [invokeObs_eq]
    exact ⟨rfl, rfl⟩
  · intro fetch k e he
    rw [invokeObs_eq, invoke_err he]
    rfl
  · intro fetch fuel
    unfold chainErr
    exact findSome?_none_of (fun k => (invokeObs fetch k).err)
      (fun k => by simp only [invokeObs_eq]) (List.range fuel)

/-- Witness for C3 at a concrete failing fetch. -/
theorem fetch_failures_surface_as_data_witness :
    (invokeObs (fun _ => FetchOutcome.err "oops" : Fetch String Nat) 0).emits
      = [{ state := "error", data := none, error := some "oops", retries := some 0 }] :=
  fetch_failures_surface_as_data.2.1 (fun _ => FetchOutcome.err "oops") 0 "oops" rfl

/-! ## Claim C4 -/

/-- C4: during the backoff wait after a failed attempt whose retry condition
holds, subscribers see the prior result relabeled with the current
loading/refreshing status instead of a raw error — no emission before the last
one ever has state `"error"` — and the same-tick error-to-loading flip is
coalesced by the `debounce` into a single emission: a chain with `k` retried
failures emits exactly one relabeled record per wait
(`{state: loadingState, error: e_j, retries: j}` for attempt `j`) followed by
the terminal record. -/
theorem invokeQuery_relabels_retry_errors {E A : Type} :
    (∀ (fetch : Fetch E A) (cond : Nat → Option E → Bool) (dly : Nat → Nat)
        (ls : String), ls ≠ "error" → ∀ fuel : Nat,
        ∀ x ∈ (invokeQuery fetch cond dly ls fuel).dropLast, x.state ≠ "error")
    ∧ (∀ (fetch : Fetch E A) (cond : Nat → Option E → Bool) (dly : Nat → Nat)
        (ls : String) (efn : Nat → E) (k fuel : Nat), ls ≠ "error" → k < fuel →
        (∀ j, j < k → fetch j = FetchOutcome.err (efn j) ∧ cond j (some (efn j)) = true) →
        ((∃ a, fetch k = FetchOutcome.ok a) ∨
          (∃ e, fetch k = FetchOutcome.err e ∧ cond k (some e) = false)) →
        invokeQuery fetch cond dly ls fuel
          = (List.range' 0 k).map
              (fun j => (⟨ls, none, some (efn j), some j⟩ : QueryOutput A E))
            ++ [invoke fetch k]) := by
  constructor
  · intro fetch cond dly ls hls fuel x hx
    exact invokeQuery_dropLast_aux fetch cond dly ls hls fuel 0 0 x hx
  · intro fetch cond dly ls efn k fuel hls hfuel hfail hterm
    have hspec := invokeQuery_chain_spec fetch cond dly ls efn k hls hfail hterm
      fuel 0 0 (Nat.zero_le k) (by omega)
    rw [Nat.sub_zero] at hspec
    exact hspec

/-- Witness for C4: the two retried failures of the C1 example are observed as
single `query-loading` emissions carrying the failure, with no intermediate
`error` state. -/
theorem invokeQuery_relabels_retry_errors_witness :
    invokeQuery (fun n => if n < 2 then FetchOutcome.err "boom" else FetchOutcome.ok (42 : Nat))
        (createRetryCondition (RetriesInput.num 2)) (fun _ => 0) "query-loading" 3
      = [⟨"query-loading", none, some "boom", some 0⟩,
         ⟨"query-loading", none, some "boom", some 1⟩,
         successOutput 2 42] :=
  (invokeQuery_relabels_retry_errors.2
      (fun n => if n < 2 then FetchOutcome.err "boom" else FetchOutcome.ok (42 : Nat))
      (createRetryCondition (RetriesInput.num 2)) (fun _ => 0) "query-loading"
      (fun _ => "boom") 2 3 (by decide) (by decide) (by decide)
      (Or.inl ⟨42, by decide⟩)).trans (by decide)

/-! ## Claim C6 -/

/-- C6: within the emissions of a single invoke-with-retry chain, the `retries`
field (taken as `0` when absent) is monotonically non-decreasing from one
emission to the next. -/
theorem invokeQuery_retries_monotone {E A : Type} (fetch : Fetch E A)
    (cond : Nat → Option E → Bool) (dly : Nat → Nat) (ls : String) (fuel : Nat)
    (_hls : ls ≠ "error") :
    List.Chain' (fun a b => a.retries.getD 0 ≤ b.retries.getD 0)
      (invokeQuery fetch cond dly ls fuel) := by
  have hp := chainAuxT_retries_pairwise fetch cond dly ls fuel 0 0
  have hs := debounceSim_sublist (chainAuxT fetch cond dly ls fuel 0 0)
  have hp2 : ((chainAuxT fetch cond dly ls fuel 0 0).map Prod.snd).Pairwise
      (fun a b => a.retries.getD 0 ≤ b.retries.getD 0) :=
    List.pairwise_map.mpr hp
  exact (List.Pairwise.sublist hs hp2).chain'

/-- Witness for C6 on the C1 example chain. -/
theorem invokeQuery_retries_monotone_witness :
    List.Chain' (fun a b => a.retries.getD 0 ≤ b.retries.getD 0)
      (invokeQuery (fun n => if n < 2 then FetchOutcome.err "boom" else FetchOutcome.ok (42 : Nat))
        (createRetryCondition (RetriesInput.num 2)) (fun _ => 0) "query-loading" 5) :=
  invokeQuery_retries_monotone _ _ _ _ _ (by decide)



/-! ## Claim C5 -/

/-- C5: the resolved cache key is the bare query key when params is `undefined`
or `null`, and otherwise the key suffixed (after a `"-"`) with the canonical
serialization of the params: strings and numbers are appended raw, every other
value through the deterministic `JSON.stringify` serialization, so equal params
always produce the same cache key. -/
theorem cacheKey_resolution :
    (∀ key : String, queryKeyAndParamsToCacheKey key JSValue.undef = key
      ∧ queryKeyAndParamsToCacheKey key JSValue.null = key)
    ∧ (∀ key s : String, queryKeyAndParamsToCacheKey key (JSValue.str s) = key ++ "-" ++ s)
    ∧ (∀ (key : String) (n : Int),
        queryKeyAndParamsToCacheKey key (JSValue.num n) = key ++ "-" ++ toString n)
    ∧ (∀ (key : String) (p : JSValue), p.isUndef = false → p.isNull = false →
        queryKeyAndParamsToCacheKey key p = key ++ "-" ++ paramSuffix p)
    ∧ (∀ (key : String) (fs : List (String × JSValue)), ∃ s,
        jsonStringify (JSValue.obj fs) = some s
        ∧ queryKeyAndParamsToCacheKey key (JSValue.obj fs) = key ++ "-" ++ s)
    ∧ (∀ (key : String) (p q : JSValue), p = q →
        queryKeyAndParamsToCacheKey key p = queryKeyAndParamsToCacheKey key q) := by
  refine ⟨?_, ?_, ?_, ?_, ?_, ?_⟩
  · intro key
    exact ⟨rfl, rfl⟩
  · intro key s
    rfl
  · intro key n
    rfl
  · intro key p hu hn
    unfold queryKeyAndParamsToCacheKey
    rw [hu, hn]
    rfl
  · intro key fs
    exact ⟨_, rfl, rfl⟩
  · intro key p q h
    rw [h]

/-- Witness for C5 at an object parameter. -/
theorem cacheKey_resolution_witness :
    queryKeyAndParamsToCacheKey "todos" (JSValue.obj [("a", JSValue.num 1)])
      = "todos" ++ "-" ++ paramSuffix (JSValue.obj [("a", JSValue.num 1)]) :=
  cacheKey_resolution.2.2.2.1 "todos" (JSValue.obj [("a", JSValue.num 1)]) rfl rfl

/-! ## Claim C7 -/

/-- C7: the resolved configuration is the field-wise object-spread merge of the
caller overrides on top of the defaults `retries = 3`,
`retryDelay = n ↦ (n+1)·1000`, `refetchOnWindowFocus = false`,
`refetchInterval` disabled, `staleTime = 0`, `cacheTime = 300000`: a field the
caller supplies replaces the default, a field the caller omits keeps it. -/
theorem parseInput_config_merge {E : Type} :
    ((mergeConfig none : ResolvedQueryConfig E) = DEFAULT_QUERY_CONFIG
      ∧ (DEFAULT_QUERY_CONFIG : ResolvedQueryConfig E).retries = RetriesInput.num 3
      ∧ (DEFAULT_QUERY_CONFIG : ResolvedQueryConfig E).retryDelay
          = RetryDelayInput.fn (fun n => (n + 1) * 1000)
      ∧ (DEFAULT_QUERY_CONFIG : ResolvedQueryConfig E).refetchOnWindowFocus = some false
      ∧ (DEFAULT_QUERY_CONFIG : ResolvedQueryConfig E).refetchInterval = none
      ∧ (DEFAULT_QUERY_CONFIG : ResolvedQueryConfig E).staleTime = some 0
      ∧ (DEFAULT_QUERY_CONFIG : ResolvedQueryConfig E).cacheTime = some 300000)
    ∧ ∀ i : QueryConfigInput E,
      ((i.retries = none → (mergeConfig (some i)).retries = RetriesInput.num 3)
        ∧ ∀ v, i.retries = some v → (mergeConfig (some i)).retries = v)
      ∧ ((i.retryDelay = none →
            (mergeConfig (some i)).retryDelay = RetryDelayInput.fn (fun n => (n + 1) * 1000))
        ∧ ∀ v, i.retryDelay = some v → (mergeConfig (some i)).retryDelay = v)
      ∧ ((i.refetchOnWindowFocus = none →
            (mergeConfig (some i)).refetchOnWindowFocus = some false)
        ∧ ∀ v, i.refetchOnWindowFocus = some v →
            (mergeConfig (some i)).refetchOnWindowFocus = v)
      ∧ ((i.refetchInterval = none → (mergeConfig (some i)).refetchInterval = none)
        ∧ ∀ v, i.refetchInterval = some v → (mergeConfig (some i)).refetchInterval = v)
      ∧ ((i.staleTime = none → (mergeConfig (some i)).staleTime = some 0)
        ∧ ∀ v, i.staleTime = some v → (mergeConfig (some i)).staleTime = v)
      ∧ ((i.cacheTime = none → (mergeConfig (some i)).cacheTime = some 300000)
        ∧ ∀ v, i.cacheTime = some v → (mergeConfig (some i)).cacheTime = v) := by
  constructor
  · exact ⟨rfl, rfl, rfl, rfl, rfl, rfl, rfl⟩
  · intro i
    refine ⟨⟨?_, ?_⟩, ⟨?_, ?_⟩, ⟨?_, ?_⟩, ⟨?_, ?_⟩, ⟨?_, ?_⟩, ⟨?_, ?_⟩⟩ <;>
      first
        | (intro h; simp [mergeConfig, spreadConfig, DEFAULT_QUERY_CONFIG, h])
        | (intro v h; simp [mergeConfig, spreadConfig, h])

/-- Witness for C7: a config supplying `retries` and `staleTime` keeps the
defaults of the omitted fields and takes the supplied values. -/
theorem parseInput_config_merge_witness :
    (mergeConfig (some ⟨some (RetriesInput.num 5), none, none, none, some (some 60000), none⟩)
        : ResolvedQueryConfig Unit).retries = RetriesInput.num 5
    ∧ (mergeConfig (some ⟨some (RetriesInput.num 5), none, none, none, some (some 60000), none⟩)
        : ResolvedQueryConfig Unit).staleTime = some 60000
    ∧ (mergeConfig (some ⟨some (RetriesInput.num 5), none, none, none, some (some 60000), none⟩)
        : ResolvedQueryConfig Unit).cacheTime = some 300000 :=
  ⟨((@parseInput_config_merge Unit).2 _).1.2 _ rfl,
   ((@parseInput_config_merge Unit).2 _).2.2.2.2.1.2 _ rfl,
   ((@parseInput_config_merge Unit).2 _).2.2.2.2.2.1 rfl⟩

/-! ## Claim C10 -/

/-- C10: because the merge uses an object spread, a caller config whose
`retries` key is present with value `undefined` overrides the default `3` with
`undefined`; `createRetryCondition` then yields the constantly false predicate
(`undefined || (() => false)`), so a failing fetch is attempted exactly once
and the chain emits the single record `{state:"error", error, retries:0}` —
whereas under the default configuration the same failing fetch is retried three
times and ends with `retries = 3`. -/
theorem undefined_retries_overrides_default {E A : Type} :
    ((mergeConfig (some ⟨some RetriesInput.undef, none, none, none, none, none⟩)
        : ResolvedQueryConfig E).retries = RetriesInput.undef)
    ∧ (∀ (n : Nat) (e : Option E),
        createRetryCondition (RetriesInput.undef : RetriesInput E) n e = false)
    ∧ (∀ (fetch : Fetch E A) (e : E) (dly : Nat → Nat) (ls : String) (fuel : Nat),
        ls ≠ "error" → 0 < fuel → fetch 0 = FetchOutcome.err e →
        invokeQuery fetch
          (createRetryCondition
            (mergeConfig (some ⟨some RetriesInput.undef, none, none, none, none, none⟩)
              : ResolvedQueryConfig E).retries) dly ls fuel
          = [errorOutput 0 e])
    ∧ (∀ (fetch : Fetch E A) (efn : Nat → E) (dly : Nat → Nat) (ls : String) (fuel : Nat),
        ls ≠ "error" → 3 < fuel → (∀ j, fetch j = FetchOutcome.err (efn j)) →
        invokeQuery fetch
          (createRetryCondition (mergeConfig none : ResolvedQueryConfig E).retries)
          dly ls fuel
          = (List.range' 0 3).map
              (fun j => (⟨ls, none, some (efn j), some j⟩ : QueryOutput A E))
            ++ [errorOutput 3 (efn 3)]) := by
  refine ⟨rfl, fun n e => rfl, ?_, ?_⟩
  · intro fetch e dly ls fuel hls hfuel he
    have hspec := invokeQuery_chain_spec fetch
      (createRetryCondition
        (mergeConfig (some ⟨some RetriesInput.undef, none, none, none, none, none⟩)
          : ResolvedQueryConfig E).retries) dly ls (fun _ => e) 0 hls
      (fun j hj => absurd hj (Nat.not_lt_zero j)) (Or.inr ⟨e, he, rfl⟩) fuel 0 0
      (Nat.le_refl 0) (by omega)
    rw [Nat.sub_zero] at hspec
    unfold invokeQuery
    rw [hspec, invoke_err he]
    rfl
  · intro fetch efn dly ls fuel hls hfuel hfail
    have hcond : ∀ j, j < 3 →
        createRetryCondition (mergeConfig none : ResolvedQueryConfig E).retries j
          (some (efn j)) = true := by
      intro j hj
      exact decide_eq_true hj
    have hspec := invokeQuery_chain_spec fetch
      (createRetryCondition (mergeConfig none : ResolvedQueryConfig E).retries)
      dly ls efn 3 hls (fun j hj => ⟨hfail j, hcond j hj⟩)
      (Or.inr ⟨efn 3, hfail 3, rfl⟩) fuel 0 0 (by omega) (by omega)
    rw [Nat.sub_zero] at hspec
    unfold invokeQuery
    rw [hspec, invoke_err (hfail 3)]

/-- Witness for C10: a permanently failing fetch under `{retries: undefined}`
is attempted exactly once. -/
theorem undefined_retries_overrides_default_witness :
    invokeQuery (fun _ => FetchOutcome.err "down" : Fetch String Nat)
        (createRetryCondition
          (mergeConfig (some ⟨some RetriesInput.undef, none, none, none, none, none⟩)
            : ResolvedQueryConfig String).retries) (fun _ => 0) "query-loading" 5
      = [errorOutput 0 "down"] :=
  undefined_retries_overrides_default.2.2.1 (fun _ => FetchOutcome.err "down") "down"
    (fun _ => 0) "query-loading" 5 (by decide) (by decide) rfl



/-- A value other than `undefined` tests false under `isUndef`. -/
theorem isUndef_false_of_ne {p : JSValue} (h : p ≠ JSValue.undef) :
    p.isUndef = false := by
  cases p <;> first | rfl | exact absurd rfl h

/-! ## Claim C2 (corrected) -/

/-- Counterexample to C2 as stated: on the parameter stream `1, undefined, 2`
the genuine change from `undefined` to `2` (previous cache key `"k"`) emits
only a subscribe — the claimed unsubscribe for cache key `"k"` never appears —
because the `concatMap` body skips the unsubscribe whenever the previous value
is `undefined`, not only for the injected initial one. -/
theorem paramsTrigger_change_events_cex :
    ((paramsTrigger (DEFAULT_QUERY_CONFIG : ResolvedQueryConfig Unit)
        [JSValue.num 1, JSValue.undef, JSValue.num 2] "k").map
          (fun r => (r.trigger, r.key))
      = [("query-subscribe", "k-1"), ("query-unsubscribe", "k-1"),
         ("query-subscribe", "k"), ("query-subscribe", "k-2")])
    ∧ (∀ r ∈ paramsTrigger (DEFAULT_QUERY_CONFIG : ResolvedQueryConfig Unit)
        [JSValue.num 1, JSValue.undef, JSValue.num 2] "k",
        ¬(r.trigger = "query-unsubscribe" ∧ r.key = "k")) := by
  constructor
  · decide
  · decide

/-- C2 (amended): the params trigger compares consecutive values by equality of
their `JSON.stringify` serializations (so a new but structurally identical
value compares equal): equal consecutive values emit nothing, and each change
emits exactly one unsubscribe for the previous cache key immediately followed
by one subscribe for the new one — except that when the previous value is
`undefined` (in particular before the very first value) only the subscribe is
emitted.  The pipeline equals the change-driven recursion `paramsEventsSpec`,
and the two object examples of the spec hold. -/
theorem paramsTrigger_change_events {E : Type} :
    (∀ (cfg : ResolvedQueryConfig E) (ps : List JSValue) (key : String),
        paramsTrigger cfg ps key = paramsEventsSpec cfg key JSValue.undef ps)
    ∧ (∀ (cfg : ResolvedQueryConfig E) (key : String) (prev a b : JSValue)
        (rest : List JSValue), stringifyEq a b = true →
        paramsEventsSpec cfg key prev (a :: b :: rest)
          = paramsEventsSpec cfg key prev (a :: rest))
    ∧ (∀ (cfg : ResolvedQueryConfig E) (key : String) (prev v : JSValue)
        (rest : List JSValue), stringifyEq prev v = false → prev ≠ JSValue.undef →
        paramsEventsSpec cfg key prev (v :: rest)
          = ⟨queryKeyAndParamsToCacheKey key prev, "query-unsubscribe", prev, cfg⟩
            :: ⟨queryKeyAndParamsToCacheKey key v, "query-subscribe", v, cfg⟩
            :: paramsEventsSpec cfg key v rest)
    ∧ (∀ (cfg : ResolvedQueryConfig E) (key : String) (v : JSValue)
        (rest : List JSValue), stringifyEq JSValue.undef v = false →
        paramsEventsSpec cfg key JSValue.undef (v :: rest)
          = ⟨queryKeyAndParamsToCacheKey key v, "query-subscribe", v, cfg⟩
            :: paramsEventsSpec cfg key v rest)
    ∧ ((paramsTrigger (DEFAULT_QUERY_CONFIG : ResolvedQueryConfig Unit)
        [JSValue.obj [("a", JSValue.num 1)], JSValue.obj [("a", JSValue.num 1)]] "k").map
          (fun r => (r.trigger, r.key))
        = [("query-subscribe", "k-\x7b\"a\":1\x7d")])
    ∧ ((paramsTrigger (DEFAULT_QUERY_CONFIG : ResolvedQueryConfig Unit)
        [JSValue.obj [("a", JSValue.num 1)], JSValue.obj [("a", JSValue.num 2)]] "k").map
          (fun r => (r.trigger, r.key))
        = [("query-subscribe", "k-\x7b\"a\":1\x7d"),
           ("query-unsubscribe", "k-\x7b\"a\":1\x7d"),
           ("query-subscribe", "k-\x7b\"a\":2\x7d")]) := by
  refine ⟨paramsTrigger_eq_spec, ?_, ?_, ?_, by decide, by decide⟩
  · intro cfg key prev a b rest h
    cases hpa : stringifyEq prev a with
    | true =>
      have hpb : stringifyEq prev b = true := by
        rw [stringifyEq_congr h] at hpa
        exact hpa
      rw [paramsEventsSpec, if_pos hpa, paramsEventsSpec, if_pos hpb,
        paramsEventsSpec, if_pos hpa]
    | false =>
      have hinner : paramsEventsSpec cfg key a (b :: rest)
          = paramsEventsSpec cfg key a rest := by
        rw [paramsEventsSpec, if_pos h]
      conv_lhs => rw [paramsEventsSpec]
      conv_rhs => rw [paramsEventsSpec]
      rw [if_neg (by simp [hpa]), if_neg (by simp [hpa]), hinner]
  · intro cfg key prev v rest h hne
    rw [paramsEventsSpec, if_neg (by simp [h])]
    unfold paramsStep
    rw [isUndef_false_of_ne hne]
    rfl
  · intro cfg key v rest h
    rw [paramsEventsSpec, if_neg (by simp [h])]
    rfl

/-- Witness for C2: applying the dedup clause of the amended theorem to the new but
structurally equal `{a:1}` object. -/
theorem paramsTrigger_change_events_witness :
    paramsEventsSpec (DEFAULT_QUERY_CONFIG : ResolvedQueryConfig Unit) "k" JSValue.undef
        [JSValue.obj [("a", JSValue.num 1)], JSValue.obj [("a", JSValue.num 1)]]
      = paramsEventsSpec DEFAULT_QUERY_CONFIG "k" JSValue.undef
        [JSValue.obj [("a", JSValue.num 1)]] :=
  paramsTrigger_change_events.2.1 DEFAULT_QUERY_CONFIG "k" JSValue.undef
    (JSValue.obj [("a", JSValue.num 1)]) (JSValue.obj [("a", JSValue.num 1)]) []
    (by decide)

/-! ## Claim C9 (corrected) -/

/-- Counterexample to C9 as stated: the parameter stream `undefined, 1` has
`undefined` as its first value, yet the params trigger does emit a subscribe
event (for the second value), so "emits no query-subscribe at all" does not
follow from the first value being `undefined`. -/
theorem query_undefined_param_cex :
    ((paramsTrigger (DEFAULT_QUERY_CONFIG : ResolvedQueryConfig Unit)
        [JSValue.undef, JSValue.num 1] "k").length = 1)
    ∧ ((paramsTrigger (DEFAULT_QUERY_CONFIG : ResolvedQueryConfig Unit)
        [JSValue.undef, JSValue.num 1] "k").map (fun r => (r.trigger, r.key))
      = [("query-subscribe", "k-1")]) := by
  constructor
  · decide
  · decide

/-- C9 (amended): when every value of the resolved parameter stream is
`undefined` — as with the call `query(key, undefined, fetchFn)`, whose static
param resolves to the single-element stream `[undefined]` — the params trigger
emits no event at all (each value compares stringify-equal to the injected
initial `undefined`), and consequently the `withLatestFrom`-gated result stream
of `query` never emits any Result. -/
theorem query_undefined_param_silent {E α : Type} [BEq α] :
    (parsedQueryParam (FirstInput.param JSValue.undef) = [JSValue.undef])
    ∧ (∀ (cfg : ResolvedQueryConfig E) (key : String) (ps : List JSValue),
        (∀ v ∈ ps, v = JSValue.undef) → paramsTrigger cfg ps key = [])
    ∧ (∀ (cfg : ResolvedQueryConfig E) (key : String) (ps : List JSValue),
        (∀ v ∈ ps, v = JSValue.undef) →
        ∀ (cacheSrc : List (Nat × (String → Option α))) (tags : List Nat),
          queryEmits cacheSrc cfg ps key tags = []) := by
  refine ⟨rfl, fun cfg key ps h => paramsTrigger_all_undef cfg key ps h, ?_⟩
  · intro cfg key ps h cacheSrc tags
    unfold queryEmits
    rw [paramsTrigger_all_undef cfg key ps h]
    rw [List.zip_nil_right]
    have hw : withLatestFromSim cacheSrc ([] : List (Nat × Revalidator E)) = [] := by
      unfold withLatestFromSim latestAt
      simp
    rw [hw]
    rfl

/-- Witness for C9 at the static-undefined-param call with a live cache
source. -/
theorem query_undefined_param_silent_witness :
    queryEmits [(0, fun _ => some (1 : Nat)), (5, fun _ => some 2)]
        (DEFAULT_QUERY_CONFIG : ResolvedQueryConfig Unit)
        (parsedQueryParam (FirstInput.param JSValue.undef)) "k" [] = [] :=
  (@query_undefined_param_silent Unit Nat _).2.2 DEFAULT_QUERY_CONFIG "k"
    (parsedQueryParam (FirstInput.param JSValue.undef))
    (fun _v hv => List.mem_singleton.mp hv)
    [(0, fun _ => some 1), (5, fun _ => some 2)] []

/-! ## Claim C8 (corrected) -/

/-- Counterexample to C8 as stated: (a) for `query(k, undefined, fetchFn)` the
params trigger never emits, so the finalize run at the detach of the last listener
pushes no unsubscribe event at all (`take(1)` of an empty stream), not exactly
one; (b) for a (cold, replayed) two-valued parameter stream `1, 2` the pushed
event carries the cache key of the first params event, `"k-1"`, not the current
cache key `"k-2"`. -/
theorem query_finalize_cex :
    ((onDetach (DEFAULT_QUERY_CONFIG : ResolvedQueryConfig Unit) [JSValue.undef] "k").pushes.length = 0)
    ∧ ¬((onDetach (DEFAULT_QUERY_CONFIG : ResolvedQueryConfig Unit) [JSValue.undef] "k").pushes.length = 1)
    ∧ ((onDetach (DEFAULT_QUERY_CONFIG : ResolvedQueryConfig Unit)
        [JSValue.num 1, JSValue.num 2] "k").pushes.map (fun p => (p.trigger, p.key))
      = [("query-unsubscribe", "k-1")])
    ∧ (queryKeyAndParamsToCacheKey "k" (JSValue.num 2) = "k-2") := by
  refine ⟨by decide, by decide, by decide, by decide⟩

/-- C8 (amended): every subscription to the stream returned by `query` runs its
own defer-created pipeline, so the transition of its listener count from one to
zero runs the `finalize` of that pipeline: provided the params trigger emits at
least one event, exactly one revalidation event is pushed — trigger
`query-unsubscribe`, carrying the cache key of the first params-trigger event
of a fresh subscription (the current key whenever the parameter stream is
single-valued) and the resolved config — and the merged trigger subscription is
torn down in the same step. -/
theorem query_finalize_unsubscribe {E : Type} (cfg : ResolvedQueryConfig E)
    (queryParam : List JSValue) (key : String) (r0 : Revalidator E)
    (h : (paramsTrigger cfg queryParam key).head? = some r0) :
    (onDetach cfg queryParam key).pushes = [⟨r0.key, "query-unsubscribe", cfg, r0⟩]
    ∧ (onDetach cfg queryParam key).teardownTriggers = true := by
  unfold onDetach
  rw [h]
  exact ⟨rfl, rfl⟩

/-- Witness for C8 on a static parameter: the single pushed event carries the
(current) cache key `"k-1"` and the resolved config, and the trigger teardown
happens in the same step. -/
theorem query_finalize_unsubscribe_witness :
    (onDetach (DEFAULT_QUERY_CONFIG : ResolvedQueryConfig Unit) [JSValue.num 1] "k").pushes
      = [⟨"k-1", "query-unsubscribe", DEFAULT_QUERY_CONFIG,
          ⟨"k-1", "query-subscribe", JSValue.num 1, DEFAULT_QUERY_CONFIG⟩⟩]
    ∧ (onDetach (DEFAULT_QUERY_CONFIG : ResolvedQueryConfig Unit) [JSValue.num 1] "k").teardownTriggers
      = true :=
  query_finalize_unsubscribe DEFAULT_QUERY_CONFIG [JSValue.num 1] "k"
    ⟨"k-1", "query-subscribe", JSValue.num 1, DEFAULT_QUERY_CONFIG⟩ rfl


end RxQuery
